import Mathlib

/-
Verification of the reference-resolution and migration scripts.

Strings are modelled as lists of Unicode code points (`List Nat`), so that
Python's ASCII-level `str.strip()`, `str.lower()`, `str.upper()` and slicing
become executable Lean functions. Python dictionaries built by comprehensions
are modelled as association lists read with last-write-wins semantics, which
matches dict insertion order where later duplicate keys override earlier ones.
-/

namespace Production

/-- Strings as lists of Unicode code points. -/
abbrev Str := List Nat

/-- Whitespace characters removed by Python `str.strip()` (ASCII range). -/
def isWS (c : Nat) : Bool :=
  c = 32 || c = 9 || c = 10 || c = 13 || c = 11 || c = 12

/-- Python `str.lower()` on one ASCII code point. -/
def lowerChar (c : Nat) : Nat :=
  if 65 ≤ c ∧ c ≤ 90 then c + 32 else c

/-- Python `str.upper()` on one ASCII code point. -/
def upperChar (c : Nat) : Nat :=
  if 97 ≤ c ∧ c ≤ 122 then c - 32 else c

/-- Remove leading whitespace (`str.lstrip()`). -/
def trimLeft (s : Str) : Str := s.dropWhile isWS

/-- Remove trailing whitespace (`str.rstrip()`). -/
def trimRight (s : Str) : Str := (s.reverse.dropWhile isWS).reverse

/-- Python `str.strip()`: remove leading and trailing whitespace. -/
def trim (s : Str) : Str := trimLeft (trimRight s)

/-- Python `str.lower()` (ASCII). -/
def lower (s : Str) : Str := s.map lowerChar

/-- Python `str.upper()` (ASCII). -/
def upper (s : Str) : Str := s.map upperChar

/-- Inject a Lean string literal into the code-point model. -/
def strCodes (s : String) : Str := s.data.map Char.toNat

/-- Read an association list with last-write-wins semantics: the value of the
last entry whose key equals `k`, as Python dict comprehensions keep the last
binding for a duplicated key. -/
def assocFind {α β : Type} [DecidableEq α] (d : List (α × β)) (k : α) : Option β :=
  (d.reverse.find? (fun p => decide (p.1 = k))).map Prod.snd

/-- Python `d.get(k, "")` on a string-valued dictionary. -/
def pyGet (d : List (Str × Str)) (k : Str) : Str :=
  (assocFind d k).getD []

/-- The row-mapping lambda shared by the mapping scripts:
`lambda val: d.get(str(val).strip().lower(), "") if str(val).strip() else ""`. -/
def lookupOrBlank (d : List (Str × Str)) (val : Str) : Str :=
  if trim val = [] then [] else pyGet d (lower (trim val))

/-- Dictionary built by `load_simple_lookup`: every column is first stripped,
then the comprehension keys on `str(k).strip().lower()` and keeps
`str(v).strip()`, skipping rows whose stripped key is empty. -/
def buildSimpleLookup (rows : List (Str × Str)) : List (Str × Str) :=
  rows.filterMap (fun p =>
    let k := trim p.1
    let v := trim p.2
    if trim k = [] then none else some (lower (trim k), trim v))

/-- Key normalization of the `use_15char=True` branch of `load_lookup_dict`
in case_surveys_audit_15char.py: `str(k).strip().lower()[:15]`. -/
def normalize15 (s : Str) : Str := (lower (trim s)).take 15

/-- Dictionary built by `load_lookup_dict` with `use_15char=True`: every
column is first stripped, then the comprehension keys on
`str(k).strip().lower()[:15]` and keeps `str(v).strip()`, skipping rows
whose stripped key is empty. -/
def buildLookup15 (rows : List (Str × Str)) : List (Str × Str) :=
  rows.filterMap (fun p =>
    let k := trim p.1
    let v := trim p.2
    if trim k = [] then none else some (normalize15 k, trim v))

/-- The `_Lkp` column value produced by `create_lkp_and_flag` with
`use_15char=True`:
`lambda x: d.get(str(x).strip().lower()[:15], "") if str(x).strip() else ""`. -/
def createLkp15 (d : List (Str × Str)) (x : Str) : Str :=
  if trim x = [] then [] else pyGet d (normalize15 x)

/-- C8: a lookup table built from rows [("A1","X1"), ("a1","X2")] keys both
rows on "a1" and the later row wins, so resolving "A1" yields "X2". -/
theorem c8_last_write_wins :
    lookupOrBlank
      (buildSimpleLookup
        [(strCodes "A1", strCodes "X1"), (strCodes "a1", strCodes "X2")])
      (strCodes "A1") = strCodes "X2" := by
  decide

/-- Building a 15-char lookup table from one row whose stripped key is
non-empty yields one entry under the truncated normalized key. -/
lemma buildLookup15_single (k v : Str) (h : ¬ trim (trim k) = []) :
    buildLookup15 [(k, v)] = [(normalize15 (trim k), trim (trim v))] := by
  simp [buildLookup15, h]

/-- Reading a one-entry dictionary at its own key returns the stored value. -/
lemma pyGet_single (k v q : Str) (h : q = k) : pyGet [(k, v)] q = v := by
  simp [pyGet, assocFind, h]

/-- C9: with prefix length 15, a table built (use_15char) from a row keyed by
the 18-character id "001Vq00000bXYaIIAW" stores it under the normalized key
"001vq00000bxyai", and querying via create_lkp_and_flag with the 15-character
form "001Vq00000bXYaI" returns the same resolved value as querying with the
full 18-character form. -/
theorem c9_id15_matching (v : Str) :
    buildLookup15 [(strCodes "001Vq00000bXYaIIAW", v)]
      = [(strCodes "001vq00000bxyai", trim (trim v))] ∧
    createLkp15 (buildLookup15 [(strCodes "001Vq00000bXYaIIAW", v)])
        (strCodes "001Vq00000bXYaI")
      = createLkp15 (buildLookup15 [(strCodes "001Vq00000bXYaIIAW", v)])
        (strCodes "001Vq00000bXYaIIAW") := by
  have hb := buildLookup15_single (strCodes "001Vq00000bXYaIIAW") v (by decide)
  have hn : normalize15 (trim (strCodes "001Vq00000bXYaIIAW"))
      = strCodes "001vq00000bxyai" := by decide
  refine ⟨by rw [hb, hn], ?_⟩
  rw [hb, hn]
  simp only [createLkp15]
  rw [if_neg (by decide : ¬ trim (strCodes "001Vq00000bXYaI") = [])]
  rw [if_neg (by decide : ¬ trim (strCodes "001Vq00000bXYaIIAW") = [])]
  rw [(by decide : normalize15 (strCodes "001Vq00000bXYaI")
        = strCodes "001vq00000bxyai")]
  rw [(by decide : normalize15 (strCodes "001Vq00000bXYaIIAW")
        = strCodes "001vq00000bxyai")]

/-- True when the last character of the string is whitespace. -/
def endsInWS (s : Str) : Bool :=
  match s.getLast? with
  | some c => isWS c
  | none => false

/-- Lower-casing does not change whether a character is whitespace. -/
lemma isWS_lowerChar (c : Nat) : isWS (lowerChar c) = isWS c := by
  unfold lowerChar
  split
  · rename_i h
    have h1 : isWS (c + 32) = false := by simp only [isWS]; simp; omega
    have h2 : isWS c = false := by simp only [isWS]; simp; omega
    rw [h1, h2]
  · rfl

/-- ASCII lower-casing of a character is idempotent. -/
lemma lowerChar_idem (c : Nat) : lowerChar (lowerChar c) = lowerChar c := by
  by_cases h : 65 ≤ c ∧ c ≤ 90
  · simp only [lowerChar, if_pos h]
    rw [if_neg]
    omega
  · simp only [lowerChar, if_neg h]

/-- The head of `dropWhile isWS` is never whitespace. -/
lemma head_dropWhile_notWS (s : Str) :
    ∀ c ∈ (s.dropWhile isWS).head?, isWS c = false := by
  induction s with
  | nil => simp
  | cons a t ih =>
    by_cases h : isWS a = true
    · rw [List.dropWhile_cons_of_pos h]
      exact ih
    · rw [List.dropWhile_cons_of_neg h]
      simp only [List.head?_cons, Option.mem_def, Option.some.injEq]
      intro c hc
      rw [← hc]
      exact Bool.not_eq_true _ |>.mp h

/-- A string whose head is not whitespace is unchanged by left trimming. -/
lemma trimLeft_eq_self (s : Str) (h : ∀ c ∈ s.head?, isWS c = false) :
    trimLeft s = s := by
  cases s with
  | nil => rfl
  | cons a t =>
    have ha : isWS a = false := h a (by simp)
    unfold trimLeft
    rw [List.dropWhile_cons_of_neg (by simp [ha])]

/-- A string whose last character is not whitespace is unchanged by right
trimming. -/
lemma trimRight_eq_self (s : Str) (h : ∀ c ∈ s.getLast?, isWS c = false) :
    trimRight s = s := by
  unfold trimRight
  have hh : ∀ c ∈ s.reverse.head?, isWS c = false := by
    intro c hc
    exact h c (by rwa [List.head?_reverse] at hc)
  have : s.reverse.dropWhile isWS = s.reverse := trimLeft_eq_self s.reverse hh
  rw [this, List.reverse_reverse]

/-- The head of a trimmed string is never whitespace. -/
lemma head_trim_notWS (s : Str) : ∀ c ∈ (trim s).head?, isWS c = false := by
  unfold trim trimLeft
  exact head_dropWhile_notWS (trimRight s)

/-- A normalized key is written as a lower-cased prefix of the trimmed input. -/
lemma normalize15_eq_map (s : Str) :
    normalize15 s = ((trim s).take 15).map lowerChar := by
  unfold normalize15 lower
  rw [List.map_take]

/-- The head of a normalized key is never whitespace. -/
lemma head_normalize15_notWS (s : Str) :
    ∀ c ∈ (normalize15 s).head?, isWS c = false := by
  rw [normalize15_eq_map]
  intro c hc
  rw [List.head?_map] at hc
  cases htk : ((trim s).take 15).head? with
  | none => rw [htk] at hc; simp at hc
  | some b =>
    rw [htk] at hc
    simp at hc
    have hb : b ∈ (trim s).head? := by
      cases hts : trim s with
      | nil => rw [hts] at htk; simp at htk
      | cons x xs =>
        rw [hts] at htk
        simp only [List.take_succ_cons, List.head?_cons, Option.some.injEq] at htk
        simp [hts, htk]
    rw [← hc, isWS_lowerChar]
    exact head_trim_notWS s b hb

/-- C7 (amended): the normalization used for 15-character lookup keys is
idempotent on every input whose normalized key does not end in whitespace. -/
theorem c7_normalize15_idem (x : Str)
    (h : endsInWS (normalize15 x) = false) :
    normalize15 (normalize15 x) = normalize15 x := by
  have hlast : ∀ c ∈ (normalize15 x).getLast?, isWS c = false := by
    intro c hc
    unfold endsInWS at h
    rw [Option.mem_def.mp hc] at h
    exact h
  have htrim : trim (normalize15 x) = normalize15 x := by
    unfold trim
    rw [trimRight_eq_self _ hlast, trimLeft_eq_self _ (head_normalize15_notWS x)]
  have hlower : lower (normalize15 x) = normalize15 x := by
    rw [normalize15_eq_map]
    unfold lower
    rw [List.map_map]
    have : lowerChar ∘ lowerChar = lowerChar := funext lowerChar_idem
    rw [this]
  have htake : (normalize15 x).take 15 = normalize15 x := by
    unfold normalize15
    rw [List.take_take]
    simp
  calc normalize15 (normalize15 x)
      = ((lower (trim (normalize15 x)))).take 15 := rfl
    _ = (lower (normalize15 x)).take 15 := by rw [htrim]
    _ = (normalize15 x).take 15 := by rw [hlower]
    _ = normalize15 x := htake

/-- C7 (counterexample): on the input "aaaaaaaaaaaaaa b", whose 15-character
prefix ends in a space, the normalization is not idempotent: normalizing once
gives "aaaaaaaaaaaaaa " and normalizing again strips the trailing space. -/
theorem c7_counterexample :
    ¬ normalize15 (normalize15 (strCodes "aaaaaaaaaaaaaa b"))
      = normalize15 (strCodes "aaaaaaaaaaaaaa b") := by
  decide

/-- C7 (witness): the amended idempotence applies to the concrete identifier
"001Vq00000bXYaIIAW". -/
theorem c7_normalize15_idem_witness :
    endsInWS (normalize15 (strCodes "001Vq00000bXYaIIAW")) = false ∧
    normalize15 (normalize15 (strCodes "001Vq00000bXYaIIAW"))
      = normalize15 (strCodes "001Vq00000bXYaIIAW") :=
  ⟨by decide, c7_normalize15_idem (strCodes "001Vq00000bXYaIIAW") (by decide)⟩

/-- Default owner id used by case_surveys_mapping_production.py. -/
def DEFAULT_OWNER_ID : Str := strCodes "005Vq000008gEtBIAU"

/-- Default created-by / last-modified-by id. -/
def DEFAULT_CREATEDBY_LASTMODIFIED_ID : Str := strCodes "005A0000000rXeVIAU"

/-- Default id for Agent__c and Managers_Name_LU__c. -/
def DEFAULT_AGENT_MANAGER_ID : Str := strCodes "005A0000000rXeVIAU"

/-- Per-row transform of the standard user fields OwnerId, CreatedById and
LastModifiedById in case_surveys_mapping_production.py: apply the user
lookup (blank for blank input), then replace any blank result — including the
result of a blank input — with the field's default. `isOwner` selects the
OwnerId default. -/
def mapStandardUserField (d : List (Str × Str)) (isOwner : Bool) (val : Str) :
    Str :=
  let mapped := lookupOrBlank d val
  if trim mapped = [] then
    if isOwner then DEFAULT_OWNER_ID else DEFAULT_CREATEDBY_LASTMODIFIED_ID
  else mapped

/-- Per-row transform of Agent__c and Managers_Name_LU__c: blank stays blank;
a non-blank value that fails the lookup is recorded as unmapped (the Bool)
and replaced by the default. -/
def mapCustomUserField (d : List (Str × Str)) (val : Str) : Str × Bool :=
  let original := trim val
  let mapped := lookupOrBlank d val
  if original ≠ [] ∧ trim mapped = [] then (DEFAULT_AGENT_MANAGER_ID, true)
  else (mapped, false)

/-- Per-row transform of Case__c, Contact_ID__c and Recipient_Contact__c:
the looked-up value is the output (blank when unresolved), and a non-blank
input whose lookup came back blank is recorded as unmapped (the Bool). -/
def mapTrackedField (d : List (Str × Str)) (val : Str) : Str × Bool :=
  let original := trim val
  let mapped := lookupOrBlank d val
  (mapped, decide (original ≠ [] ∧ trim mapped = []))

/-- A blank (whitespace-only) input maps to blank under the shared lookup
lambda. -/
lemma lookupOrBlank_blank (d : List (Str × Str)) (val : Str)
    (h : trim val = []) : lookupOrBlank d val = [] := by
  unfold lookupOrBlank
  rw [if_pos h]

/-- C1 (counterexample): OwnerId in case_surveys_mapping_production.py does
not obey blank-in/blank-out — a blank input is replaced by the default owner
id, so the output is non-empty. -/
theorem c1_counterexample :
    ¬ mapStandardUserField [] true [] = [] := by
  decide

/-- C1 (amended): blank-in/blank-out holds for Agent__c,
Managers_Name_LU__c, Case__c, Contact_ID__c and Recipient_Contact__c — a
blank or whitespace-only input yields a blank output and is never defaulted
nor tracked as unmapped — while the standard user fields OwnerId, CreatedById
and LastModifiedById instead replace a blank input with their defaults
(and are never tracked as unmapped, as they have no unmapped files). -/
theorem c1_blank_in_blank_out (d : List (Str × Str)) (val : Str)
    (h : trim val = []) :
    mapCustomUserField d val = ([], false) ∧
    mapTrackedField d val = ([], false) ∧
    mapStandardUserField d true val = DEFAULT_OWNER_ID ∧
    mapStandardUserField d false val = DEFAULT_CREATEDBY_LASTMODIFIED_ID := by
  have hl := lookupOrBlank_blank d val h
  refine ⟨?_, ?_, ?_, ?_⟩
  · unfold mapCustomUserField
    rw [hl, if_neg]
    simp [h]
  · unfold mapTrackedField
    rw [hl]
    simp [h]
  · unfold mapStandardUserField
    rw [hl]
    decide
  · unfold mapStandardUserField
    rw [hl]
    decide

/-- C1 (witness): the amended blank-in/blank-out behavior at a concrete
whitespace-only input and a concrete one-entry dictionary. -/
theorem c1_blank_in_blank_out_witness :
    trim (strCodes "   ") = [] ∧
    mapCustomUserField [(strCodes "u1", strCodes "X")] (strCodes "   ")
      = ([], false) ∧
    mapTrackedField [(strCodes "u1", strCodes "X")] (strCodes "   ")
      = ([], false) ∧
    mapStandardUserField [(strCodes "u1", strCodes "X")] true (strCodes "   ")
      = DEFAULT_OWNER_ID ∧
    mapStandardUserField [(strCodes "u1", strCodes "X")] false (strCodes "   ")
      = DEFAULT_CREATEDBY_LASTMODIFIED_ID := by
  have h : trim (strCodes "   ") = [] := by decide
  have := c1_blank_in_blank_out [(strCodes "u1", strCodes "X")]
    (strCodes "   ") h
  exact ⟨h, this.1, this.2.1, this.2.2.1, this.2.2.2⟩

/-- A tabular lookup source file: its path, its column names, and its rows,
each row an association of column name to cell value. -/
structure SrcFile where
  path : Str
  cols : List Str
  rows : List (List (Str × Str))

/-- Read one cell of a row, empty string for an absent column. -/
def cellVal (row : List (Str × Str)) (c : Str) : Str :=
  ((row.find? (fun p => decide (p.1 = c))).map Prod.snd).getD []

/-- Function `load_simple_lookup` of the mapping scripts: if the key column or the
value column is missing, raise a ValueError naming the file (modelled as
`Except.error` carrying the path); otherwise strip every column and build the
lower-cased key dictionary. -/
def loadSimpleLookup (f : SrcFile) (keyCol valCol : Str) :
    Except Str (List (Str × Str)) :=
  if keyCol ∈ f.cols ∧ valCol ∈ f.cols then
    Except.ok (buildSimpleLookup
      (f.rows.map (fun r => (cellVal r keyCol, cellVal r valCol))))
  else Except.error f.path

/-- Function `load_lookup_dict` of the warn-variant audit scripts
(case_surveys_audit.py, case_surveys_audit_15char.py,
case_survey_junction_audit.py, opportunity_audit.py): if the
key column or the value column is missing, print a warning and return an
empty dictionary — the run continues. The Bool records whether the warning
was printed. -/
def loadLookupDictAudit (f : SrcFile) (keyCol valCol : Str) :
    Bool × List (Str × Str) :=
  if ¬ (keyCol ∈ f.cols) ∨ ¬ (valCol ∈ f.cols) then (true, [])
  else (false, buildSimpleLookup
    (f.rows.map (fun r => (cellVal r keyCol, cellVal r valCol))))

/-- Function `load_lookup_dict` of talkdesk_activity_case_relation_audit.py:
unlike the warn-variant audit scripts, a missing key or value column raises a
ValueError naming the file (modelled as `Except.error` carrying the path),
exactly like `load_simple_lookup` of the mapping scripts. -/
def loadLookupDictTalkdesk (f : SrcFile) (keyCol valCol : Str) :
    Except Str (List (Str × Str)) :=
  if keyCol ∈ f.cols ∧ valCol ∈ f.cols then
    Except.ok (buildSimpleLookup
      (f.rows.map (fun r => (cellVal r keyCol, cellVal r valCol))))
  else Except.error f.path

/-- A concrete lookup file that lacks both configured columns. -/
def fileMissingCols : SrcFile :=
  { path := strCodes "Case_Lkp.csv"
    cols := [strCodes "Foo"]
    rows := [[(strCodes "Foo", strCodes "x1")]] }

/-- C2 (counterexample): on a concrete lookup file missing the configured
key and value columns, `load_lookup_dict` of case_surveys_audit.py does not
abort — it returns an empty dictionary (with only a printed warning) and the
audit run carries on with every value unmatched. -/
theorem c2_counterexample :
    loadLookupDictAudit fileMissingCols
      (strCodes "Legacy_SF_Record_ID__c") (strCodes "Id") = (true, []) := by
  decide

/-- C2 (amended): when a lookup source is missing the configured key column
or value column, `load_simple_lookup` in the mapping scripts and
`load_lookup_dict` in talkdesk_activity_case_relation_audit.py abort with a
configuration error identifying the file before any source row is processed,
but `load_lookup_dict` in the warn-variant audit scripts
(case_surveys_audit.py, case_surveys_audit_15char.py,
case_survey_junction_audit.py, opportunity_audit.py) merely prints a warning
and returns an empty dictionary, letting the run continue. -/
theorem c2_missing_columns (f : SrcFile) (keyCol valCol : Str)
    (h : ¬ (keyCol ∈ f.cols) ∨ ¬ (valCol ∈ f.cols)) :
    loadSimpleLookup f keyCol valCol = Except.error f.path ∧
    loadLookupDictTalkdesk f keyCol valCol = Except.error f.path ∧
    loadLookupDictAudit f keyCol valCol = (true, []) := by
  have hnc : ¬ (keyCol ∈ f.cols ∧ valCol ∈ f.cols) := by
    intro hc
    rcases h with h | h
    · exact h hc.1
    · exact h hc.2
  refine ⟨?_, ?_, ?_⟩
  · unfold loadSimpleLookup
    rw [if_neg hnc]
  · unfold loadLookupDictTalkdesk
    rw [if_neg hnc]
  · unfold loadLookupDictAudit
    rw [if_pos h]

/-- C2 (witness): the amended behavior at the concrete missing-column file. -/
theorem c2_missing_columns_witness :
    (¬ (strCodes "Legacy_SF_Record_ID__c" ∈ fileMissingCols.cols) ∨
      ¬ (strCodes "Id" ∈ fileMissingCols.cols)) ∧
    loadSimpleLookup fileMissingCols
        (strCodes "Legacy_SF_Record_ID__c") (strCodes "Id")
      = Except.error fileMissingCols.path ∧
    loadLookupDictTalkdesk fileMissingCols
        (strCodes "Legacy_SF_Record_ID__c") (strCodes "Id")
      = Except.error fileMissingCols.path ∧
    loadLookupDictAudit fileMissingCols
        (strCodes "Legacy_SF_Record_ID__c") (strCodes "Id") = (true, []) := by
  have h : ¬ (strCodes "Legacy_SF_Record_ID__c" ∈ fileMissingCols.cols) ∨
      ¬ (strCodes "Id" ∈ fileMissingCols.cols) := by decide
  have := c2_missing_columns fileMissingCols
    (strCodes "Legacy_SF_Record_ID__c") (strCodes "Id") h
  exact ⟨h, this.1, this.2.1, this.2.2⟩

/-- Account constant substituted for Unity record types. -/
def ACCOUNT_UNITY_ID : Str := strCodes "001Vq00000bXYaIIAW"

/-- Account constant substituted for Arrow / Verical record types. -/
def ACCOUNT_ARROW_VERTICAL_ID : Str := strCodes "001Vq00000bXUGZIA4"

/-- Trimming the empty string gives the empty string. -/
lemma trim_nil : trim ([] : Str) = [] := rfl

/-- Step 1 of opportunity_mapping_production.py for AccountId: the category
gate on the row's "Account.recordtype.Name" value, trimmed and upper-cased.
"RFPD ACCOUNT" blanks the field, "UNITY" and "ARROW / VERICAL" substitute the
account constants, anything else passes the value through. -/
def gateAccount (accountVal rtName : Str) : Str :=
  let rt := upper (trim rtName)
  if rt = strCodes "RFPD ACCOUNT" then []
  else if rt = strCodes "UNITY" then ACCOUNT_UNITY_ID
  else if rt = strCodes "ARROW / VERICAL" then ACCOUNT_ARROW_VERTICAL_ID
  else accountVal

/-- Function `map_account` of opportunity_mapping_production.py, instrumented with a
Bool telling whether the account lookup dictionary was consulted: blank stays
blank, a value equal to one of the account constants is returned as is, and
only otherwise is the lookup dictionary read. -/
def mapAccountInstr (d : List (Str × Str)) (val : Str) : Str × Bool :=
  let v := trim val
  if v = [] then ([], false)
  else if v = ACCOUNT_UNITY_ID ∨ v = ACCOUNT_ARROW_VERTICAL_ID then (v, false)
  else (pyGet d (lower v), true)

/-- Outcome of the AccountId column for one row of
opportunity_mapping_production.py. -/
structure AccountRowResult where
  output : Str
  blanked : Bool
  unmapped : Bool
  consulted : Bool
deriving DecidableEq

/-- The full AccountId path for one row: the record-type gate, the refresh of
the tracked original value after gating, `map_account`, and the unmapped mask
`(original != "") & (mapped == "") & ~original.isin(constants)`. -/
def processAccountRow (d : List (Str × Str)) (accountVal rtName : Str) :
    AccountRowResult :=
  let gated := gateAccount accountVal rtName
  let original := trim gated
  let r := mapAccountInstr d gated
  let mapped := trim r.1
  { output := r.1
    blanked := decide (upper (trim rtName) = strCodes "RFPD ACCOUNT")
    unmapped := decide (original ≠ [] ∧ mapped = [] ∧
      ¬ (original = ACCOUNT_UNITY_ID ∨ original = ACCOUNT_ARROW_VERTICAL_ID))
    consulted := r.2 }

/-- C3: when the RFPD gate fires for a row, the AccountId output is blank,
its blanking is recorded, the account lookup dictionary is never consulted —
whatever it contains — and the row is not tracked as unmapped. -/
theorem c3_gate_precedence (d : List (Str × Str)) (accountVal rtName : Str)
    (h : upper (trim rtName) = strCodes "RFPD ACCOUNT") :
    processAccountRow d accountVal rtName =
      { output := [], blanked := true, unmapped := false,
        consulted := false } := by
  unfold processAccountRow gateAccount mapAccountInstr
  rw [h]
  simp [trim_nil]

/-- C3 (witness): the gate fires on a lower-case, padded record-type value,
with a dictionary that does map the row's original account value. -/
theorem c3_gate_precedence_witness :
    upper (trim (strCodes " rfpd account ")) = strCodes "RFPD ACCOUNT" ∧
    processAccountRow [(strCodes "003abc", strCodes "NEWID")]
        (strCodes "003abc") (strCodes " rfpd account ") =
      { output := [], blanked := true, unmapped := false,
        consulted := false } :=
  ⟨by decide,
    c3_gate_precedence [(strCodes "003abc", strCodes "NEWID")]
      (strCodes "003abc") (strCodes " rfpd account ") (by decide)⟩

/-- Function `map_recordtypeid` of opportunity_mapping_production.py, instrumented
with a Bool telling whether the Destination-sheet dictionary was consulted.
`some s` is a returned string (empty for blank input); `none` is Python
`None`, tracked as unmapped. -/
def mapRecordTypeIdInstr (srcD destD : List (Str × Str)) (v : Str) :
    Option Str × Bool :=
  let c := trim v
  if c = [] then (some [], false)
  else
    let devName := pyGet srcD (lower c)
    if devName = [] then (none, false)
    else
      let destId := pyGet destD (lower devName)
      if destId = [] then (none, true) else (some destId, true)

/-- Function `apply_recordtypeid_mapping` of main: blank input passes through, a
`None` from `map_recordtypeid` becomes the empty output that the unmapped
mask then picks up. -/
def applyRecordTypeIdMapping (srcD destD : List (Str × Str)) (v : Str) :
    Str :=
  match (mapRecordTypeIdInstr srcD destD v).1 with
  | none => []
  | some s => s

/-- C5: if the first hop of the RecordTypeId chain misses (the Source-sheet
dictionary yields nothing for the trimmed, lower-cased id), the resolution is
unmapped with empty output and the Destination-sheet dictionary is never
consulted, whatever it would map. -/
theorem c5_chain_short_circuit (srcD destD : List (Str × Str)) (v : Str)
    (hnb : ¬ trim v = []) (hmiss : pyGet srcD (lower (trim v)) = []) :
    mapRecordTypeIdInstr srcD destD v = (none, false) ∧
    applyRecordTypeIdMapping srcD destD v = [] := by
  have h1 : mapRecordTypeIdInstr srcD destD v = (none, false) := by
    unfold mapRecordTypeIdInstr
    rw [if_neg hnb]
    simp [hmiss]
  exact ⟨h1, by unfold applyRecordTypeIdMapping; rw [h1]⟩

/-- C5 (witness): a concrete miss in the Source sheet while the Destination
sheet does map an intermediate value. -/
theorem c5_chain_short_circuit_witness :
    ¬ trim (strCodes "012zz") = [] ∧
    pyGet [(strCodes "012aa", strCodes "DevName1")] (lower (trim (strCodes "012zz"))) = [] ∧
    mapRecordTypeIdInstr [(strCodes "012aa", strCodes "DevName1")]
        [(strCodes "devname1", strCodes "012NEW")] (strCodes "012zz")
      = (none, false) ∧
    applyRecordTypeIdMapping [(strCodes "012aa", strCodes "DevName1")]
        [(strCodes "devname1", strCodes "012NEW")] (strCodes "012zz") = [] := by
  have h := c5_chain_short_circuit [(strCodes "012aa", strCodes "DevName1")]
    [(strCodes "devname1", strCodes "012NEW")] (strCodes "012zz")
    (by decide) (by decide)
  exact ⟨by decide, by decide, h.1, h.2⟩

/-- C10: a row whose AccountId equals one of the account constants after
trimming, and whose record type fires no gate, keeps that constant: the
lookup dictionary is never consulted and the row is not tracked as unmapped. -/
theorem c10_constant_passthrough (d : List (Str × Str))
    (accountVal rtName : Str)
    (hg1 : ¬ upper (trim rtName) = strCodes "RFPD ACCOUNT")
    (hg2 : ¬ upper (trim rtName) = strCodes "UNITY")
    (hg3 : ¬ upper (trim rtName) = strCodes "ARROW / VERICAL")
    (hc : trim accountVal = ACCOUNT_UNITY_ID ∨
      trim accountVal = ACCOUNT_ARROW_VERTICAL_ID) :
    processAccountRow d accountVal rtName =
      { output := trim accountVal, blanked := false, unmapped := false,
        consulted := false } := by
  unfold processAccountRow gateAccount mapAccountInstr
  rw [if_neg hg1, if_neg hg2, if_neg hg3]
  have hne : ¬ trim accountVal = [] := by
    rcases hc with h | h <;> rw [h] <;> decide
  simp only [if_neg hne, if_pos hc]
  rcases hc with h | h <;> rw [h] <;> simp [hg1]

/-- C10 (witness): the Unity constant arriving from the source data itself,
with no gate firing and a dictionary that maps it elsewhere. -/
theorem c10_constant_passthrough_witness :
    trim (strCodes " 001Vq00000bXYaIIAW ") = ACCOUNT_UNITY_ID ∧
    processAccountRow [(strCodes "001vq00000bxyaiiaw", strCodes "OTHER")]
        (strCodes " 001Vq00000bXYaIIAW ") (strCodes "Customer") =
      { output := trim (strCodes " 001Vq00000bXYaIIAW "), blanked := false,
        unmapped := false, consulted := false } :=
  ⟨by decide,
    c10_constant_passthrough [(strCodes "001vq00000bxyaiiaw", strCodes "OTHER")]
      (strCodes " 001Vq00000bXYaIIAW ") (strCodes "Customer")
      (by decide) (by decide) (by decide) (Or.inl (by decide))⟩

/-- Generic Python `d.get(k, default)` over any key/value types. -/
def pyGetD {α β : Type} [DecidableEq α] (d : List (α × β)) (k : α) (dflt : β) :
    β :=
  (assocFind d k).getD dflt

/-- The primary two-step chain of `map_user_id` in account_mapping_uat.py:
digital_prod_Id -> digital_Global_ID__c (lower-cased) -> merge_Id; empty
whenever either hop fails. -/
def primaryChain (dg gm : List (Str × Str)) (v : Str) : Str :=
  let idlc := lower (trim v)
  let dgid := lower (pyGetD dg idlc [])
  if dgid = [] then [] else pyGetD gm dgid []

/-- Function `map_user_id` of account_mapping_uat.py, instrumented with a Bool telling
whether the email+name fallback dictionaries were consulted. `dg` maps
digital_prod_Id to digital_Global_ID__c, `gm` maps merge_Global_ID__c to
merge_Id, `den` maps digital_prod_Id to its (email, name) pair, and `enm`
maps (email, name) to merge_Id. -/
def mapUserIdInstr (dg gm : List (Str × Str))
    (den : List (Str × (Str × Str))) (enm : List ((Str × Str) × Str))
    (v : Str) : Str × Bool :=
  if trim v = [] then ([], false)
  else
    let idlc := lower (trim v)
    let dgid := lower (pyGetD dg idlc [])
    if dgid ≠ [] ∧ (assocFind gm dgid).isSome then
      (pyGetD gm dgid [], false)
    else
      match assocFind den idlc with
      | some en =>
        let mapped := pyGetD enm (lower en.1, lower en.2) []
        if mapped ≠ [] then (mapped, true) else ([], true)
      | none => ([], true)

/-- C6: for a non-blank input id, whenever the primary two-step chain yields
a non-empty result, `map_user_id` returns exactly that result and the
email+name fallback is never consulted; and whenever the fallback is
consulted, the primary chain had failed (yields empty). -/
theorem c6_fallback_ordering (dg gm : List (Str × Str))
    (den : List (Str × (Str × Str))) (enm : List ((Str × Str) × Str))
    (v : Str) (hnb : ¬ trim v = []) :
    (primaryChain dg gm v ≠ [] →
      mapUserIdInstr dg gm den enm v = (primaryChain dg gm v, false)) ∧
    ((mapUserIdInstr dg gm den enm v).2 = true →
      primaryChain dg gm v = []) := by
  unfold mapUserIdInstr primaryChain
  rw [if_neg hnb]
  by_cases hd : lower (pyGetD dg (lower (trim v)) []) = []
  · rw [if_pos hd]
    rw [if_neg (by simp [hd])]
    constructor
    · intro hc
      exact absurd rfl hc
    · intro _
      rfl
  · rw [if_neg hd]
    by_cases hs : (assocFind gm (lower (pyGetD dg (lower (trim v)) []))).isSome
    · rw [if_pos ⟨hd, hs⟩]
      exact ⟨fun _ => rfl, fun hfalse => by simp at hfalse⟩
    · rw [if_neg (by intro hp; exact hs hp.2)]
      have hgm : pyGetD gm (lower (pyGetD dg (lower (trim v)) [])) [] = [] := by
        simp only [pyGetD] at hs ⊢
        rw [Option.not_isSome_iff_eq_none.mp hs]
        rfl
      constructor
      · intro hc
        exact absurd hgm hc
      · intro _
        exact hgm

/-- C6 (witness): a concrete id whose primary chain resolves, while the
email+name fallback tables would map it elsewhere; the chain's result is
returned and the fallback is untouched. -/
theorem c6_fallback_ordering_witness :
    ¬ trim (strCodes "005d1") = [] ∧
    primaryChain [(strCodes "005d1", strCodes "G1")]
        [(strCodes "g1", strCodes "005MERGE")] (strCodes "005d1")
      = strCodes "005MERGE" ∧
    mapUserIdInstr [(strCodes "005d1", strCodes "G1")]
        [(strCodes "g1", strCodes "005MERGE")]
        [(strCodes "005d1", (strCodes "a@b.c", strCodes "Ann"))]
        [((strCodes "a@b.c", strCodes "ann"), strCodes "005OTHER")]
        (strCodes "005d1")
      = (strCodes "005MERGE", false) := by
  have h := c6_fallback_ordering [(strCodes "005d1", strCodes "G1")]
    [(strCodes "g1", strCodes "005MERGE")]
    [(strCodes "005d1", (strCodes "a@b.c", strCodes "Ann"))]
    [((strCodes "a@b.c", strCodes "ann"), strCodes "005OTHER")]
    (strCodes "005d1") (by decide)
  have hp : primaryChain [(strCodes "005d1", strCodes "G1")]
      [(strCodes "g1", strCodes "005MERGE")] (strCodes "005d1")
      = strCodes "005MERGE" := by decide
  refine ⟨by decide, hp, ?_⟩
  rw [h.1 (by rw [hp]; decide), hp]

/-- Per-field running counters of case_parentid_mapping_production.py. -/
structure FieldStats where
  total : Nat
  nonblank : Nat
  matched : Nat
  unmatched : Nat
deriving DecidableEq

/-- The mapped value of one row for a tracked field: the case-lookup lambda
applied to the already-stripped original value. -/
def rowDest (d : List (Str × Str)) (val : Str) : Str :=
  lookupOrBlank d (trim val)

/-- Mask `original != ""` for one row. -/
def rowNonblank (val : Str) : Bool := !(trim val).isEmpty

/-- Mask `nonblank & (mapped != "")` for one row. -/
def rowMatchedP (d : List (Str × Str)) (val : Str) : Bool :=
  rowNonblank val && !(rowDest d val).isEmpty

/-- Mask `nonblank & ~(mapped != "")` for one row. -/
def rowUnmatchedP (d : List (Str × Str)) (val : Str) : Bool :=
  rowNonblank val && (rowDest d val).isEmpty

/-- One chunk's accumulator update in case_parentid_mapping_production.py:
add the chunk length and the three mask counts to the running stats. -/
def processChunk (d : List (Str × Str)) (s : FieldStats) (rows : List Str) :
    FieldStats :=
  { total := s.total + rows.length
    nonblank := s.nonblank + rows.countP rowNonblank
    matched := s.matched + rows.countP (rowMatchedP d)
    unmatched := s.unmatched + rows.countP (rowUnmatchedP d) }

/-- All counters start at zero. -/
def initStats : FieldStats := ⟨0, 0, 0, 0⟩

/-- The whole chunked run over one tracked field. -/
def runStats (d : List (Str × Str)) (chunks : List (List Str)) : FieldStats :=
  chunks.foldl (processChunk d) initStats

/-- Per-row accounting: each row is matched or unmatched exactly when it is
non-blank, so the two mask counts add to the non-blank count. -/
lemma countP_matched_add_unmatched (d : List (Str × Str)) (rows : List Str) :
    rows.countP (rowMatchedP d) + rows.countP (rowUnmatchedP d)
      = rows.countP rowNonblank := by
  induction rows with
  | nil => rfl
  | cons a t ih =>
    simp only [List.countP_cons]
    rw [← ih]
    by_cases hnb : rowNonblank a = true
    · by_cases he : (rowDest d a).isEmpty = true
      · simp [rowMatchedP, rowUnmatchedP, hnb, he]
        try omega
      · simp [rowMatchedP, rowUnmatchedP, hnb, he]
        try omega
    · simp [rowMatchedP, rowUnmatchedP, hnb]
      try omega

/-- Processing an empty chunk leaves the accumulator unchanged. -/
lemma processChunk_nil (d : List (Str × Str)) (s : FieldStats) :
    processChunk d s [] = s := by
  simp [processChunk]

/-- Two consecutive chunks accumulate the same totals as their
concatenation. -/
lemma processChunk_append (d : List (Str × Str)) (s : FieldStats)
    (a b : List Str) :
    processChunk d (processChunk d s a) b = processChunk d s (a ++ b) := by
  simp [processChunk, List.countP_append, Nat.add_assoc]

/-- The chunked fold equals one pass over the flattened input. -/
lemma foldl_processChunk (d : List (Str × Str)) (chunks : List (List Str)) :
    ∀ s : FieldStats,
      chunks.foldl (processChunk d) s = processChunk d s chunks.flatten := by
  induction chunks with
  | nil => intro s; rw [List.flatten_nil, processChunk_nil]; rfl
  | cons c cs ih =>
    intro s
    rw [List.foldl_cons, ih, List.flatten_cons, processChunk_append]

/-- Chunking does not change the run's final accumulator. -/
lemma runStats_eq_flatten (d : List (Str × Str)) (chunks : List (List Str)) :
    runStats d chunks = processChunk d initStats chunks.flatten := by
  unfold runStats
  exact foldl_processChunk d chunks initStats

/-- C4: for both tracked fields of case_parentid_mapping_production.py (Id,
taken as the first component of each row, and ParentId, the second), the final
counters satisfy matched + unmatched = nonblank and nonblank ≤ total, and any
two chunkings of the same rows — one chunk or many — give identical final
counters. -/
theorem c4_accumulator_conservation (d : List (Str × Str))
    (chunks chunks' : List (List (Str × Str)))
    (h : chunks.flatten = chunks'.flatten) :
    ((runStats d (chunks.map (List.map Prod.fst))).matched
        + (runStats d (chunks.map (List.map Prod.fst))).unmatched
      = (runStats d (chunks.map (List.map Prod.fst))).nonblank) ∧
    ((runStats d (chunks.map (List.map Prod.fst))).nonblank
      ≤ (runStats d (chunks.map (List.map Prod.fst))).total) ∧
    ((runStats d (chunks.map (List.map Prod.snd))).matched
        + (runStats d (chunks.map (List.map Prod.snd))).unmatched
      = (runStats d (chunks.map (List.map Prod.snd))).nonblank) ∧
    ((runStats d (chunks.map (List.map Prod.snd))).nonblank
      ≤ (runStats d (chunks.map (List.map Prod.snd))).total) ∧
    runStats d (chunks.map (List.map Prod.fst))
      = runStats d (chunks'.map (List.map Prod.fst)) ∧
    runStats d (chunks.map (List.map Prod.snd))
      = runStats d (chunks'.map (List.map Prod.snd)) := by
  have hmap : ∀ (f : Str × Str → Str) (cs : List (List (Str × Str))),
      (cs.map (List.map f)).flatten = cs.flatten.map f := by
    intro f cs
    rw [← List.map_flatten]
  have hinv : ∀ rows : List Str,
      (processChunk d initStats rows).matched
          + (processChunk d initStats rows).unmatched
        = (processChunk d initStats rows).nonblank ∧
      (processChunk d initStats rows).nonblank
        ≤ (processChunk d initStats rows).total := by
    intro rows
    constructor
    · simp [processChunk, initStats, countP_matched_add_unmatched]
    · simp [processChunk, initStats]
      exact List.countP_le_length _
  have e1 : runStats d (chunks.map (List.map Prod.fst))
      = processChunk d initStats (chunks.flatten.map Prod.fst) := by
    rw [runStats_eq_flatten, hmap]
  have e2 : runStats d (chunks.map (List.map Prod.snd))
      = processChunk d initStats (chunks.flatten.map Prod.snd) := by
    rw [runStats_eq_flatten, hmap]
  have e1' : runStats d (chunks'.map (List.map Prod.fst))
      = processChunk d initStats (chunks'.flatten.map Prod.fst) := by
    rw [runStats_eq_flatten, hmap]
  have e2' : runStats d (chunks'.map (List.map Prod.snd))
      = processChunk d initStats (chunks'.flatten.map Prod.snd) := by
    rw [runStats_eq_flatten, hmap]
  refine ⟨?_, ?_, ?_, ?_, ?_, ?_⟩
  · rw [e1]; exact (hinv _).1
  · rw [e1]; exact (hinv _).2
  · rw [e2]; exact (hinv _).1
  · rw [e2]; exact (hinv _).2
  · rw [e1, e1', h]
  · rw [e2, e2', h]

/-- C4 (witness): a concrete three-row dataset processed as one chunk and as
three one-row chunks gives identical, conserving final counters for both
fields. -/
theorem c4_accumulator_conservation_witness :
    ([[ (strCodes "c1", strCodes "c2"), (strCodes "c2", strCodes ""),
        (strCodes "zz", strCodes "c9") ]] :
      List (List (Str × Str))).flatten
      = ([[(strCodes "c1", strCodes "c2")], [(strCodes "c2", strCodes "")],
          [(strCodes "zz", strCodes "c9")]] :
        List (List (Str × Str))).flatten ∧
    runStats [(strCodes "c1", strCodes "N1"), (strCodes "c2", strCodes "N2")]
        ([[ (strCodes "c1", strCodes "c2"), (strCodes "c2", strCodes ""),
            (strCodes "zz", strCodes "c9") ]].map (List.map Prod.fst))
      = runStats [(strCodes "c1", strCodes "N1"), (strCodes "c2", strCodes "N2")]
        ([[(strCodes "c1", strCodes "c2")], [(strCodes "c2", strCodes "")],
          [(strCodes "zz", strCodes "c9")]].map (List.map Prod.fst)) := by
  have h := c4_accumulator_conservation
    [(strCodes "c1", strCodes "N1"), (strCodes "c2", strCodes "N2")]
    [[ (strCodes "c1", strCodes "c2"), (strCodes "c2", strCodes ""),
        (strCodes "zz", strCodes "c9") ]]
    [[(strCodes "c1", strCodes "c2")], [(strCodes "c2", strCodes "")],
      [(strCodes "zz", strCodes "c9")]] (by decide)
  exact ⟨by decide, h.2.2.2.2.1⟩

end Production
